import Mathlib

/-!
Verification of the two-agent dialogue orchestrator
(`two_agent_tinder_v2.py`): data model, provider fallback, termination
heuristic, run loop and transcript export, shallowly embedded in Lean.

Conventions of the embedding:
* Python strings are `String`; machine text is handled at the `List Char`
  level after a Python-compatible lowercasing (the regexes are compiled
  with `re.IGNORECASE`).
* The two compiled regexes `MEETING_RE` and `ACCEPTANCE_RE` are translated
  pattern by pattern into decidable scanning functions over the lowercased
  character list (`meetingMatch`, `acceptanceMatch`).  Whitespace is the
  complete Python whitespace table; the word-character, digit and
  lowercasing classes coincide with CPython exactly on the Latin-1
  repertoire (which includes every character of the vocabulary patterns),
  so matcher-dependent universal statements carry an explicit `latin1`
  scope on the decisive strings.
* Fields of the Python dataclasses that are floating point numbers and are
  only forwarded to the external API or to `time.sleep`
  (`temperature`, `turn_delay_s`) are not modelled.
* The remote provider call is external input: the run loop takes the
  providers' behaviour as a function argument keyed by agent name, which
  mirrors the `self.providers[agent.name].generate(...)` lookup.
-/

/-- Python `str.lower` restricted to the ASCII and Latin-1 ranges:
uppercase ASCII letters and the Latin-1 uppercase letters
U+00C0 to U+00DE (except the multiplication sign U+00D7) map 32 code
points up; every other character is left unchanged. -/
def pyLower (c : Char) : Char :=
  let n := c.toNat
  if 65 ≤ n ∧ n ≤ 90 then Char.ofNat (n + 32)
  else if 192 ≤ n ∧ n ≤ 222 ∧ n ≠ 215 then Char.ofNat (n + 32)
  else c

/-- Python whitespace, the complete table shared by `str.strip` and the
regex class `\s` (`str.isspace`): tab through carriage return
(U+0009 to U+000D), the information separators and space
(U+001C to U+0020), next line (U+0085), no-break space (U+00A0), ogham
space mark (U+1680), the typographic spaces U+2000 to U+200A, line and
paragraph separators (U+2028, U+2029), narrow no-break space (U+202F),
medium mathematical space (U+205F) and ideographic space (U+3000). -/
def pyIsSpace (c : Char) : Bool :=
  let n := c.toNat
  (decide (9 ≤ n) && decide (n ≤ 13)) ||
  (decide (28 ≤ n) && decide (n ≤ 32)) ||
  n == 133 || n == 160 || n == 5760 ||
  (decide (8192 ≤ n) && decide (n ≤ 8202)) ||
  n == 8232 || n == 8233 || n == 8239 || n == 8287 || n == 12288

/-- Python regex word character (`\w`, alphanumeric per `str.isalnum`
plus underscore), complete over the ASCII and Latin-1 ranges: ASCII
letters and digits, underscore, the Latin-1 letters (U+00AA, U+00B5,
U+00BA, and U+00C0 to U+00FF except the multiplication and division
signs) and the Latin-1 numerics superscript two and three (U+00B2,
U+00B3), superscript one (U+00B9) and the vulgar fractions (U+00BC to
U+00BE). -/
def isWordChar (c : Char) : Bool :=
  c.isAlphanum || c == '_' ||
  c.toNat == 170 || c.toNat == 181 || c.toNat == 186 ||
  c.toNat == 178 || c.toNat == 179 || c.toNat == 185 ||
  c.toNat == 188 || c.toNat == 189 || c.toNat == 190 ||
  (decide (192 ≤ c.toNat) && decide (c.toNat ≤ 255) &&
    decide (c.toNat ≠ 215) && decide (c.toNat ≠ 247))

/-- Wordness of an optional character; the absent character at a string
edge counts as a non-word character for `\b`. -/
def isWordOpt : Option Char → Bool
  | none => false
  | some c => isWordChar c

/-- Scan of `re.search`: try the position predicate at every position of
the list, keeping track of the previous character (needed for `\b`). -/
def searchFrom (p : Option Char → List Char → Bool) :
    Option Char → List Char → Bool
  | prev, [] => p prev []
  | prev, c :: rest => p prev (c :: rest) || searchFrom p (some c) rest

/-- Search from the start of the list (no previous character). -/
def search (p : Option Char → List Char → Bool) (cs : List Char) : Bool :=
  searchFrom p none cs

/-- Word boundary test for the position after a matched literal: `\b`
holds between the last matched character and the remainder iff exactly one
side is a word character. -/
def boundaryAfter (lastC : Char) (rest : List Char) : Bool :=
  isWordChar lastC != isWordOpt rest.head?

/-- Occurrence of a literal alternative surrounded by `\b` on both sides,
at the current position.  All the vocabulary alternatives begin and end
with word characters, so the left boundary reduces to the previous
character being non-word and the right boundary to the next character
being non-word. -/
def boundedWordAt (w : List Char) (prev : Option Char) (cs : List Char) : Bool :=
  !(isWordOpt prev) && w.isPrefixOf cs && !(isWordOpt (cs.drop w.length).head?)

/-- Search for any of the `\b(...)\b` alternatives. -/
def anyBoundedWord (ws : List (List Char)) (cs : List Char) : Bool :=
  search (fun prev rest => ws.any fun w => boundedWordAt w prev rest) cs

/-- Occurrence of a literal with only a left `\b` (the literal begins
with a word character). -/
def leftBoundedAt (w : List Char) (prev : Option Char) (cs : List Char) : Bool :=
  !(isWordOpt prev) && w.isPrefixOf cs

/-- Occurrence of a literal with only a right `\b` (the literal ends with
a word character). -/
def rightBoundedAt (w : List Char) (cs : List Char) : Bool :=
  w.isPrefixOf cs && !(isWordOpt (cs.drop w.length).head?)

/-- Plain substring occurrence (alternatives of the joined regex that
carry no `\b` of their own). -/
def substrSearch (w : List Char) (cs : List Char) : Bool :=
  search (fun _ rest => w.isPrefixOf rest) cs

/-- Tail of the clock-time pattern `\bàs?\s*\d{1,2}[:h]\d{0,2}\b` after
the separator: up to two digits followed by a word boundary, with the
existential (backtracking) semantics of `re.search`. -/
def timeTail (sep : Char) (rest : List Char) : Bool :=
  boundaryAfter sep rest ||
  (match rest with
   | c1 :: r1 =>
     c1.isDigit && (boundaryAfter c1 r1 ||
       (match r1 with
        | c2 :: r2 => c2.isDigit && boundaryAfter c2 r2
        | [] => false))
   | [] => false)

/-- Digits-and-separator part `\d{1,2}[:h]\d{0,2}\b` of the clock-time
pattern.  With one leading digit the separator must follow immediately; a
second digit forces the two-digit reading, because a digit can never match
`[:h]`. -/
def timeDigitsPart (cs : List Char) : Bool :=
  match cs with
  | c1 :: rest1 =>
    c1.isDigit &&
      (match rest1 with
       | c2 :: rest2 =>
         if c2.isDigit then
           (match rest2 with
            | sep :: r => (sep == ':' || sep == 'h') && timeTail sep r
            | [] => false)
         else (c2 == ':' || c2 == 'h') && timeTail c2 rest2
       | [] => false)
  | [] => false

/-- Part of the clock-time pattern after the mandatory `à`: optional `s`,
any amount of whitespace, then digits and separator.  Skipping a present
`s` can never succeed (the digit class rejects `s`), so trying both
readings is the backtracking semantics. -/
def timeAfterA (cs : List Char) : Bool :=
  timeDigitsPart (cs.dropWhile pyIsSpace) ||
  (match cs with
   | 's' :: rest => timeDigitsPart (rest.dropWhile pyIsSpace)
   | _ => false)

/-- Position matcher for the third meeting pattern
`\bàs?\s*\d{1,2}[:h]\d{0,2}\b`. -/
def timeMatchAt (prev : Option Char) (cs : List Char) : Bool :=
  match cs with
  | c :: rest => !(isWordOpt prev) && c == 'à' && timeAfterA rest
  | [] => false

/-- Alternatives of the first meeting pattern
`\b(encontro|encontrar|ver[- ]?nos|combinar|marcar|vamos (?:tomar|beber|jantar)|café|jantar|almoço)\b`,
with the finite character classes and groups expanded. -/
def meetingWords1 : List (List Char) :=
  ["encontro", "encontrar", "vernos", "ver-nos", "ver nos", "combinar",
   "marcar", "vamos tomar", "vamos beber", "vamos jantar", "café",
   "jantar", "almoço"].map String.toList

/-- Alternatives of the second meeting pattern
`\b(hoje|amanhã|segunda|terça|terça-feira|quarta|quinta|quinta-feira|sexta|sábado|domingo)\b`. -/
def meetingWords2 : List (List Char) :=
  ["hoje", "amanhã", "segunda", "terça", "terça-feira", "quarta",
   "quinta", "quinta-feira", "sexta", "sábado", "domingo"].map String.toList

/-- Alternatives of `ACCEPTANCE_RE = \b(combinado|feito|perfeito|fechado|ok)\b`. -/
def acceptWords : List (List Char) :=
  ["combinado", "feito", "perfeito", "fechado", "ok"].map String.toList

/-- Search of `MEETING_RE` over an already lowercased character list.  The
five patterns are joined by `|`; since alternation binds loosest, in
`\b19:00|18:30|20:00|17:30\b` only the first alternative carries the left
boundary and only the last carries the right one, and likewise in
`\bfunciona|pode ser|combinado|feito|perfeito|fechado\b`. -/
def meetingSearch (cs : List Char) : Bool :=
  anyBoundedWord meetingWords1 cs ||
  anyBoundedWord meetingWords2 cs ||
  search timeMatchAt cs ||
  (search (fun prev rest => leftBoundedAt "19:00".toList prev rest) cs ||
   substrSearch "18:30".toList cs ||
   substrSearch "20:00".toList cs ||
   search (fun _ rest => rightBoundedAt "17:30".toList rest) cs) ||
  (search (fun prev rest => leftBoundedAt "funciona".toList prev rest) cs ||
   substrSearch "pode ser".toList cs ||
   substrSearch "combinado".toList cs ||
   substrSearch "feito".toList cs ||
   substrSearch "perfeito".toList cs ||
   search (fun _ rest => rightBoundedAt "fechado".toList rest) cs)

/-- Truthiness of `MEETING_RE.search(s)` (case-insensitive). -/
def meetingMatch (s : String) : Bool :=
  meetingSearch (s.toList.map pyLower)

/-- Truthiness of `ACCEPTANCE_RE.search(s)` (case-insensitive). -/
def acceptanceMatch (s : String) : Bool :=
  anyBoundedWord acceptWords (s.toList.map pyLower)

/-- Strings over the Latin-1 repertoire (code points below 256).  On
these strings the translated word-character, digit and lowercasing
classes coincide with CPython exactly (whitespace is fully faithful on
all strings), so `meetingMatch` and `acceptanceMatch` agree with the
compiled regexes; matcher-dependent universal statements scope their
decisive strings with this predicate. -/
def latin1 (s : String) : Bool :=
  s.data.all fun c => decide (c.toNat < 256)

/-- Python `str.strip` on a character list: drop whitespace from the
front, then from the back. -/
def pyStripList (cs : List Char) : List Char :=
  ((cs.dropWhile pyIsSpace).reverse.dropWhile pyIsSpace).reverse

/-- Python `str.strip`. -/
def pyStrip (s : String) : String :=
  String.mk (pyStripList s.toList)

/-- Python `x or d` for strings: a falsy (empty) string is replaced by
the default. -/
def pyOrStr (s d : String) : String :=
  if s = "" then d else s

/-- Python `x or d` for an optional string: `None` and the empty string
are falsy. -/
def pyOrOpt (o : Option String) (d : String) : String :=
  match o with
  | none => d
  | some s => pyOrStr s d

/-- One recorded dialogue turn (`ConversationTurn` dataclass). -/
structure ConversationTurn where
  speaker : String
  text : String
deriving DecidableEq

/-- Chat-style message dict `{"role": ..., "content": ...}`. -/
structure Message where
  role : String
  content : String
deriving DecidableEq

/-- Agent configuration (`AgentConfig` dataclass).  The float field
`temperature` is only forwarded to the external API and is not
modelled. -/
structure AgentConfig where
  name : String
  system_preamble : String
  model : String
  base_url : Option String
  api_key_env : Option String
  max_tokens : Int
  initial_prompt : Option String
deriving DecidableEq

/-- Run configuration (`RunConfig` dataclass).  `max_messages` is the
turn budget, a positive integer per the specification data model; the
float field `turn_delay_s` only feeds `time.sleep` and is not
modelled. -/
structure RunConfig where
  max_messages : Nat
  print_transcript : Bool
deriving DecidableEq

/-- Termination heuristic `meeting_agreed`: with fewer than two turns the
answer is `False`; otherwise the second-to-last turn must match the
proposal vocabulary and the last turn the acceptance or the proposal
vocabulary. -/
def meeting_agreed (turns : List ConversationTurn) : Bool :=
  if turns.length < 2 then false
  else
    match turns.dropLast.getLast?, turns.getLast? with
    | some previous, some latest =>
      meetingMatch previous.text &&
        (acceptanceMatch latest.text || meetingMatch latest.text)
    | _, _ => false

example : meetingMatch "Vamos marcar café quinta às 19:00?" = true := by decide
example : acceptanceMatch "Perfeito, combinado!" = true := by decide
example : meetingMatch "Como estás?" = false := by decide
example : meetingMatch "" = false := by decide

/-- C1: `meeting_agreed` returns `false` on histories of fewer than two
turns, and on longer histories returns `true` iff the second-to-last turn
matches the proposal vocabulary (`MEETING_RE`) and the last turn matches
the acceptance vocabulary (`ACCEPTANCE_RE`) or the proposal vocabulary;
the two decisive texts are scoped to the Latin-1 repertoire, on which
the translated matchers coincide with the compiled regexes. -/
theorem meeting_agreed_spec :
    (∀ turns : List ConversationTurn,
      turns.length < 2 → meeting_agreed turns = false) ∧
    (∀ (turns : List ConversationTurn) (prev last : ConversationTurn),
      latin1 prev.text = true → latin1 last.text = true →
      meeting_agreed (turns ++ [prev, last]) =
        (meetingMatch prev.text &&
          (acceptanceMatch last.text || meetingMatch last.text))) := by
  constructor
  · intro turns h
    simp [meeting_agreed, h]
  · intro turns prev last _ _
    have hlen : (turns ++ [prev, last]).length = turns.length + 2 := by simp
    have h2 : ¬ (turns ++ [prev, last]).length < 2 := by omega
    have hsplit : turns ++ [prev, last] = (turns ++ [prev]) ++ [last] := by
      simp
    rw [meeting_agreed, if_neg h2, hsplit, List.dropLast_concat,
      List.getLast?_concat, List.getLast?_concat]

/-- Witness for C1 at concrete inputs, covering the two scenario checks
of the specification (a proposed meeting followed by an acceptance, and
small talk). -/
theorem meeting_agreed_spec_witness :
    meeting_agreed [] = false ∧
    meeting_agreed ([] ++ [ConversationTurn.mk "a" "Vamos marcar café quinta às 19:00?",
      ConversationTurn.mk "b" "Perfeito, combinado!"]) = true ∧
    meeting_agreed ([] ++ [ConversationTurn.mk "a" "Como estás?",
      ConversationTurn.mk "b" "Bem, e tu?"]) = false :=
  ⟨meeting_agreed_spec.1 [] (by decide),
   by rw [meeting_agreed_spec.2 []
       (ConversationTurn.mk "a" "Vamos marcar café quinta às 19:00?")
       (ConversationTurn.mk "b" "Perfeito, combinado!")
       (by decide) (by decide)]
      decide,
   by rw [meeting_agreed_spec.2 []
       (ConversationTurn.mk "a" "Como estás?")
       (ConversationTurn.mk "b" "Bem, e tu?")
       (by decide) (by decide)]
      decide⟩

/-- Generic default kickoff injected when no opening instruction is
configured. -/
def defaultKickoff : String :=
  "Inicia a conversa com uma abertura natural e descontraída."

/-- Orchestrator state (`TwoAgentChat`).  The provider dictionary holds
opaque client objects; its behaviour is supplied to the run loop as a
function keyed by agent name, mirroring `self.providers[agent.name]`.
Note that `TwoAgentChat.__init__` performs no validation: with two agents
of equal name the dict literal silently keeps the second entry and no
error is raised. -/
structure TwoAgentChat where
  agents : AgentConfig × AgentConfig
  run : RunConfig
  turns : List ConversationTurn
deriving DecidableEq

/-- Fresh orchestrator as built by `TwoAgentChat.__init__`: the given
agent pair and run settings and an empty turn history.  The constructor
cannot fail, whatever the configuration. -/
def initChat (agent_a agent_b : AgentConfig) (run : RunConfig) : TwoAgentChat :=
  TwoAgentChat.mk (agent_a, agent_b) run []

/-- Message context builder `TwoAgentChat.build_messages_for`: system
preamble first; with an empty history the kickoff (the configured opening
instruction if truthy, else the generic default) is the sole further
message, with role `user`; otherwise the whole history is replayed,
mapping each turn to role `assistant` when authored by the speaker and
`user` otherwise. -/
def TwoAgentChat.build_messages_for (chat : TwoAgentChat) (speaker : AgentConfig) :
    List Message :=
  if chat.turns.isEmpty then
    [Message.mk "system" speaker.system_preamble,
     Message.mk "user" (pyOrOpt speaker.initial_prompt defaultKickoff)]
  else
    Message.mk "system" speaker.system_preamble ::
      chat.turns.map fun t =>
        Message.mk (if t.speaker == speaker.name then "assistant" else "user") t.text

/-- Turn recorder `TwoAgentChat.append_turn`: the reply is stripped and
appended to the history under the speaker name (console printing is
I/O and leaves the state untouched). -/
def TwoAgentChat.append_turn (chat : TwoAgentChat) (speaker : AgentConfig)
    (text : String) : TwoAgentChat :=
  TwoAgentChat.mk chat.agents chat.run
    (chat.turns ++ [ConversationTurn.mk speaker.name (pyStrip text)])

/-- Most recent user-role content in a message list, or the empty string
(`next((m["content"] for m in reversed(messages) if m["role"] == "user"), "")`). -/
def lastUserContent (messages : List Message) : String :=
  ((messages.reverse.find? fun m => m.role == "user").map Message.content).getD ""

/-- Deterministic local fallback `Provider._stub`: if the most recent
user-role content matches the proposal vocabulary, propose a concrete
time and place, else a generic light-hearted next step; the note is
appended after a space and the result stripped. -/
def Provider.stub (messages : List Message) (note : String) : String :=
  pyStrip
    ((if meetingMatch (lastUserContent messages)
      then "Vamos combinar um café quinta às 19:00?"
      else "Adoro a energia. Que tal marcarmos algo leve para nos conhecermos?") ++
     " " ++ note)

/-- Remote chat-completions call modelled as external input: an
exception (carrying its message) or the extracted content
`resp.choices[0].message.content if resp.choices else ""`, which can be
null. -/
def RemoteOutcome : Type := Except String (Option String)

/-- Provider reply `Provider.generate`: in enabled mode a successful
remote call yields `(content or "").strip()` and a raised exception is
converted into the stub reply annotated with `(provider error: ...)`;
in disabled mode the stub reply is annotated with
`(provider unavailable)`.  The function is total: it never raises. -/
def Provider.generate (enabled : Bool) (remote : Except String (Option String))
    (messages : List Message) : String :=
  if enabled then
    match remote with
    | Except.ok content => pyStrip (pyOrOpt content "")
    | Except.error exc =>
      Provider.stub messages ("(provider error: " ++ exc ++ ")")
  else Provider.stub messages "(provider unavailable)"

/-- Behaviour of a disabled provider (no credential resolved): every
reply comes from the local stub with the `(provider unavailable)`
note. -/
def genDisabled : String → List Message → String :=
  fun _ messages => Provider.stub messages "(provider unavailable)"

/-- Run loop `TwoAgentChat.run_until_meeting_or_max`, with the remaining
budget (`max_messages - turns_taken`) as fuel and the providers'
behaviour as the function `gen` keyed by agent name: pick the agent at
the alternating index, build its context, generate a reply (`or ""`),
record it (`or "..."`), stop when `meeting_agreed` fires, otherwise flip
the index and continue (the optional `time.sleep` is untimed here). -/
def runLoop (gen : String → List Message → String) :
    Nat → Nat → TwoAgentChat → TwoAgentChat
  | 0, _, chat => chat
  | fuel + 1, current_index, chat =>
    let agent := if current_index = 0 then chat.agents.1 else chat.agents.2
    let prompt_messages := chat.build_messages_for agent
    let reply := pyOrStr (gen agent.name prompt_messages) ""
    let chat2 := chat.append_turn agent (pyOrStr reply "...")
    if meeting_agreed chat2.turns then chat2
    else runLoop gen fuel (1 - current_index) chat2

/-- Full run from the orchestrator state: at most `max_messages` loop
iterations starting with agent index 0. -/
def TwoAgentChat.run_until_meeting_or_max (gen : String → List Message → String)
    (chat : TwoAgentChat) : TwoAgentChat :=
  runLoop gen chat.run.max_messages 0 chat

/-- Construction plus run with both providers disabled. -/
def runDisabled (agent_a agent_b : AgentConfig) (run : RunConfig) : TwoAgentChat :=
  TwoAgentChat.run_until_meeting_or_max genDisabled (initChat agent_a agent_b run)

example :
    (runLoop (fun _ _ => "olá") 2 0
      (initChat (AgentConfig.mk "A" "pa" "m" none none 300 none)
        (AgentConfig.mk "B" "pb" "m" none none 300 none)
        (RunConfig.mk 2 true))).turns =
    [ConversationTurn.mk "A" "olá", ConversationTurn.mk "B" "olá"] := by decide

@[simp]
lemma append_turn_turns (chat : TwoAgentChat) (sp : AgentConfig) (text : String) :
    (chat.append_turn sp text).turns =
      chat.turns ++ [ConversationTurn.mk sp.name (pyStrip text)] := rfl

@[simp]
lemma append_turn_agents (chat : TwoAgentChat) (sp : AgentConfig) (text : String) :
    (chat.append_turn sp text).agents = chat.agents := rfl

/-- Unfolding of one loop iteration. -/
lemma runLoop_succ (gen : String → List Message → String) (fuel i : Nat)
    (chat : TwoAgentChat) :
    runLoop gen (fuel + 1) i chat =
      (let agent := if i = 0 then chat.agents.1 else chat.agents.2
       let chat2 := chat.append_turn agent
         (pyOrStr (pyOrStr (gen agent.name (chat.build_messages_for agent)) "") "...")
       if meeting_agreed chat2.turns then chat2
       else runLoop gen fuel (1 - i) chat2) := rfl

/-- Each loop iteration appends exactly one turn, so at most `fuel` turns
are added. -/
lemma runLoop_length_le (gen : String → List Message → String) :
    ∀ (fuel i : Nat) (chat : TwoAgentChat),
      (runLoop gen fuel i chat).turns.length ≤ chat.turns.length + fuel := by
  intro fuel
  induction fuel with
  | zero => intro i chat; simp [runLoop]
  | succ n ih =>
    intro i chat
    rw [runLoop_succ]
    dsimp only
    by_cases h : meeting_agreed
        (chat.append_turn (if i = 0 then chat.agents.1 else chat.agents.2)
          (pyOrStr (pyOrStr
            (gen (if i = 0 then chat.agents.1 else chat.agents.2).name
              (chat.build_messages_for (if i = 0 then chat.agents.1 else chat.agents.2))) "")
            "...")).turns
    · rw [if_pos h]; simp
    · rw [if_neg h]
      have := ih (1 - i)
        (chat.append_turn (if i = 0 then chat.agents.1 else chat.agents.2)
          (pyOrStr (pyOrStr
            (gen (if i = 0 then chat.agents.1 else chat.agents.2).name
              (chat.build_messages_for (if i = 0 then chat.agents.1 else chat.agents.2))) "")
            "..."))
      simp at this ⊢
      omega

/-- C6: whatever the providers return and whenever (or never) the
termination detector fires, the run loop records at most `max_messages`
turns. -/
theorem run_turns_le_max (gen : String → List Message → String)
    (a b : AgentConfig) (r : RunConfig) :
    (TwoAgentChat.run_until_meeting_or_max gen (initChat a b r)).turns.length ≤
      r.max_messages := by
  have h := runLoop_length_le gen r.max_messages 0 (initChat a b r)
  simpa [TwoAgentChat.run_until_meeting_or_max, initChat] using h

/-- Strict alternation invariant of the loop: with distinct agent names,
if the accumulated history alternates and its last turn (when present)
belongs to the agent opposite the current index, the whole resulting
history alternates. -/
lemma runLoop_alternates (gen : String → List Message → String) :
    ∀ (fuel i : Nat) (chat : TwoAgentChat),
      i = 0 ∨ i = 1 →
      chat.agents.1.name ≠ chat.agents.2.name →
      List.Chain' (fun t u : ConversationTurn => t.speaker ≠ u.speaker) chat.turns →
      (∀ t ∈ chat.turns.getLast?,
        t.speaker = (if 1 - i = 0 then chat.agents.1 else chat.agents.2).name) →
      List.Chain' (fun t u : ConversationTurn => t.speaker ≠ u.speaker)
        (runLoop gen fuel i chat).turns := by
  intro fuel
  induction fuel with
  | zero => intro i chat _ _ hch _; simpa [runLoop] using hch
  | succ n ih =>
    intro i chat hi hne hch hlast
    rw [runLoop_succ]
    dsimp only
    have hstep : ∀ text : String,
        List.Chain' (fun t u : ConversationTurn => t.speaker ≠ u.speaker)
          (chat.append_turn (if i = 0 then chat.agents.1 else chat.agents.2) text).turns := by
      intro text
      rw [append_turn_turns]
      refine List.Chain'.append hch (List.chain'_singleton _) ?_
      intro x hx y hy
      simp only [List.head?_cons, Option.mem_def, Option.some.injEq] at hy
      subst hy
      have hx2 := hlast x hx
      rcases hi with hi | hi
      · subst hi; simpa using fun hcon => hne (by simp at hx2; rw [hx2] at hcon; exact hcon.symm)
      · subst hi; simpa using fun hcon => hne (by simp at hx2; rw [hx2] at hcon; exact hcon)
    by_cases h : meeting_agreed
        (chat.append_turn (if i = 0 then chat.agents.1 else chat.agents.2)
          (pyOrStr (pyOrStr
            (gen (if i = 0 then chat.agents.1 else chat.agents.2).name
              (chat.build_messages_for (if i = 0 then chat.agents.1 else chat.agents.2))) "")
            "...")).turns
    · rw [if_pos h]; exact hstep _
    · rw [if_neg h]
      refine ih (1 - i) _ ?_ (by simpa using hne) (hstep _) ?_
      · rcases hi with hi | hi <;> subst hi <;> simp
      · intro t ht
        rw [append_turn_turns, List.getLast?_concat] at ht
        simp only [Option.mem_def, Option.some.injEq] at ht
        subst ht
        rcases hi with hi | hi <;> subst hi <;> simp

/-- C7: with the two agents carrying distinct names (the data model
requires the two display names to be unique), consecutive recorded turns
of any run have different speakers. -/
theorem run_speakers_alternate (gen : String → List Message → String)
    (a b : AgentConfig) (r : RunConfig) (hne : a.name ≠ b.name) :
    ∀ (i : Nat)
      (h : i + 1 <
        (TwoAgentChat.run_until_meeting_or_max gen (initChat a b r)).turns.length),
      ((TwoAgentChat.run_until_meeting_or_max gen (initChat a b r)).turns.get
          ⟨i, Nat.lt_of_succ_lt h⟩).speaker ≠
      ((TwoAgentChat.run_until_meeting_or_max gen (initChat a b r)).turns.get
          ⟨i + 1, h⟩).speaker := by
  intro i h
  have hch := runLoop_alternates gen r.max_messages 0 (initChat a b r)
    (Or.inl rfl) hne List.chain'_nil (by intro t ht; simp [initChat] at ht)
  rw [List.chain'_iff_get] at hch
  have heq : TwoAgentChat.run_until_meeting_or_max gen (initChat a b r) =
      runLoop gen r.max_messages 0 (initChat a b r) := rfl
  rw [heq] at h
  exact hch i (by omega)

/-- Witness for C7: a concrete three-turn run with constant provider
replies alternates between the two agent names. -/
theorem run_speakers_alternate_witness :
    ((TwoAgentChat.run_until_meeting_or_max (fun _ _ => "olá")
        (initChat (AgentConfig.mk "A" "pa" "m" none none 300 none)
          (AgentConfig.mk "B" "pb" "m" none none 300 none)
          (RunConfig.mk 3 true))).turns.get ⟨0, by decide⟩).speaker ≠
    ((TwoAgentChat.run_until_meeting_or_max (fun _ _ => "olá")
        (initChat (AgentConfig.mk "A" "pa" "m" none none 300 none)
          (AgentConfig.mk "B" "pb" "m" none none 300 none)
          (RunConfig.mk 3 true))).turns.get ⟨1, by decide⟩).speaker :=
  run_speakers_alternate (fun _ _ => "olá")
    (AgentConfig.mk "A" "pa" "m" none none 300 none)
    (AgentConfig.mk "B" "pb" "m" none none 300 none)
    (RunConfig.mk 3 true) (by decide) 0 (by decide)

/-- Reply of the disabled fallback when the last user content does not
match the proposal vocabulary. -/
def genericFull : String :=
  "Adoro a energia. Que tal marcarmos algo leve para nos conhecermos? (provider unavailable)"

lemma meetingMatch_genericFull : meetingMatch genericFull = false := by decide

lemma acceptanceMatch_genericFull : acceptanceMatch genericFull = false := by decide

/-- The most recent user content is the empty default or the content of
some user-role message of the list. -/
lemma lastUserContent_cases (msgs : List Message) :
    lastUserContent msgs = "" ∨
    ∃ m, m ∈ msgs ∧ m.role = "user" ∧ m.content = lastUserContent msgs := by
  unfold lastUserContent
  cases hf : msgs.reverse.find? (fun m => m.role == "user") with
  | none => left; rfl
  | some m =>
    right
    refine ⟨m, ?_, ?_, ?_⟩
    · rw [← List.mem_reverse]; exact List.mem_of_find?_eq_some hf
    · have := List.find?_some hf; simpa using this
    · rfl

/-- With a non-empty history of non-matching texts, the built message
context has no user content matching the proposal vocabulary. -/
lemma build_messages_user_nonmatch (chat : TwoAgentChat) (agent : AgentConfig)
    (hne : chat.turns ≠ [])
    (h : ∀ t ∈ chat.turns, meetingMatch t.text = false) :
    meetingMatch (lastUserContent (chat.build_messages_for agent)) = false := by
  rcases lastUserContent_cases (chat.build_messages_for agent) with
    h0 | ⟨m, hmem, hrole, hcontent⟩
  · rw [h0]; decide
  · rw [← hcontent]
    unfold TwoAgentChat.build_messages_for at hmem
    have hempty : chat.turns.isEmpty = false := by
      cases hturns : chat.turns with
      | nil => exact absurd hturns hne
      | cons x xs => rfl
    rw [hempty] at hmem
    simp only [Bool.false_eq_true, if_false, List.mem_cons, List.mem_map] at hmem
    rcases hmem with hm | ⟨t, ht, hm⟩
    · rw [hm] at hrole; simp at hrole
    · have : m.content = t.text := by rw [← hm]
      rw [this]; exact h t ht

/-- On a non-matching last user content the stub produces the generic
fallback reply. -/
lemma Provider_stub_unavailable_generic (msgs : List Message)
    (h : meetingMatch (lastUserContent msgs) = false) :
    Provider.stub msgs "(provider unavailable)" = genericFull := by
  unfold Provider.stub
  rw [h]
  decide

/-- A history all of whose texts fail the proposal vocabulary can never
satisfy the termination heuristic. -/
lemma meeting_agreed_eq_false_of (l : List ConversationTurn)
    (h : ∀ t ∈ l, meetingMatch t.text = false) :
    meeting_agreed l = false := by
  unfold meeting_agreed
  by_cases hl : l.length < 2
  · simp [hl]
  · rw [if_neg hl]
    cases hp : l.dropLast.getLast? with
    | none => cases hq : l.getLast? <;> rfl
    | some p =>
      have hpmem : p ∈ l :=
        (List.dropLast_sublist l).subset (List.mem_of_mem_getLast? hp)
      cases hq : l.getLast? with
      | none => rfl
      | some q => simp [h p hpmem]

/-- With disabled providers and a non-empty, never-matching history, the
loop always takes the generic fallback branch, the heuristic never fires,
and exactly `fuel` further turns are recorded, all non-matching. -/
lemma runLoop_disabled_spec :
    ∀ (fuel i : Nat) (chat : TwoAgentChat),
      chat.turns ≠ [] →
      (∀ t ∈ chat.turns, meetingMatch t.text = false) →
      (runLoop genDisabled fuel i chat).turns.length = chat.turns.length + fuel ∧
      ∀ t ∈ (runLoop genDisabled fuel i chat).turns, meetingMatch t.text = false := by
  intro fuel
  induction fuel with
  | zero =>
    intro i chat _ h
    exact ⟨by simp [runLoop], by simpa [runLoop] using h⟩
  | succ n ih =>
    intro i chat hne h
    rw [runLoop_succ]
    dsimp only
    have hgen : genDisabled (if i = 0 then chat.agents.1 else chat.agents.2).name
        (chat.build_messages_for (if i = 0 then chat.agents.1 else chat.agents.2)) =
        genericFull := by
      unfold genDisabled
      exact Provider_stub_unavailable_generic _ (build_messages_user_nonmatch chat _ hne h)
    rw [hgen]
    have hor : pyOrStr (pyOrStr genericFull "") "..." = genericFull := by decide
    rw [hor]
    have htext : pyStrip genericFull = genericFull := by decide
    have hall : ∀ t ∈ (chat.append_turn
        (if i = 0 then chat.agents.1 else chat.agents.2) genericFull).turns,
        meetingMatch t.text = false := by
      rw [append_turn_turns]
      intro t ht
      rcases List.mem_append.mp ht with h1 | h2
      · exact h t h1
      · simp only [List.mem_singleton] at h2
        subst h2
        show meetingMatch (pyStrip genericFull) = false
        rw [htext]
        exact meetingMatch_genericFull
    have hagreed : meeting_agreed (chat.append_turn
        (if i = 0 then chat.agents.1 else chat.agents.2) genericFull).turns = false :=
      meeting_agreed_eq_false_of _ hall
    rw [hagreed]
    simp only [Bool.false_eq_true, if_false]
    have hne2 : (chat.append_turn
        (if i = 0 then chat.agents.1 else chat.agents.2) genericFull).turns ≠ [] := by
      rw [append_turn_turns]
      exact List.append_ne_nil_of_right_ne_nil _ (by simp)
    obtain ⟨hlen, hmem⟩ := ih (1 - i) _ hne2 hall
    refine ⟨?_, hmem⟩
    rw [hlen, append_turn_turns]
    simp
    omega

/-- Core property of a fully disabled run whose first kickoff does not
match the proposal vocabulary: the full budget is consumed and every
recorded text fails the proposal vocabulary. -/
lemma run_disabled_core (a b : AgentConfig) (r : RunConfig)
    (h : meetingMatch (pyOrOpt a.initial_prompt defaultKickoff) = false) :
    (runDisabled a b r).turns.length = r.max_messages ∧
    ∀ t ∈ (runDisabled a b r).turns, meetingMatch t.text = false := by
  unfold runDisabled TwoAgentChat.run_until_meeting_or_max
  rw [show (initChat a b r).run.max_messages = r.max_messages from rfl]
  cases hr : r.max_messages with
  | zero =>
    refine ⟨by simp [runLoop, initChat], ?_⟩
    intro t ht
    simp [runLoop, initChat] at ht
  | succ n =>
    rw [runLoop_succ]
    dsimp only
    have hagent : (if (0 : Nat) = 0 then (initChat a b r).agents.1
        else (initChat a b r).agents.2) = a := rfl
    rw [hagent]
    have hlast : lastUserContent ((initChat a b r).build_messages_for a) =
        pyOrOpt a.initial_prompt defaultKickoff := rfl
    have hgen : genDisabled a.name ((initChat a b r).build_messages_for a) =
        genericFull := by
      unfold genDisabled
      exact Provider_stub_unavailable_generic _ (by rw [hlast]; exact h)
    rw [hgen]
    have hor : pyOrStr (pyOrStr genericFull "") "..." = genericFull := by decide
    rw [hor]
    have htext : pyStrip genericFull = genericFull := by decide
    have hall : ∀ t ∈ ((initChat a b r).append_turn a genericFull).turns,
        meetingMatch t.text = false := by
      rw [append_turn_turns]
      intro t ht
      simp only [initChat, List.nil_append, List.mem_singleton] at ht
      subst ht
      show meetingMatch (pyStrip genericFull) = false
      rw [htext]
      exact meetingMatch_genericFull
    have hagreed : meeting_agreed ((initChat a b r).append_turn a genericFull).turns =
        false := meeting_agreed_eq_false_of _ hall
    rw [hagreed]
    simp only [Bool.false_eq_true, if_false]
    have hne2 : ((initChat a b r).append_turn a genericFull).turns ≠ [] := by
      rw [append_turn_turns]
      exact List.append_ne_nil_of_right_ne_nil _ (by simp)
    obtain ⟨hlen, hmem⟩ := runLoop_disabled_spec n (1 - 0) _ hne2 hall
    refine ⟨?_, hmem⟩
    rw [hlen, append_turn_turns]
    simp [initChat]
    omega

/-- C5 (amended): a run with both providers disabled records exactly
`max_messages` turns, alternating (given the distinct names the data
model requires), with `meeting_agreed` false at every step, provided the
first speaker's effective kickoff (its opening instruction, or the
generic default) is drawn from the Latin-1 repertoire — on which the
translated proposal matcher coincides with `MEETING_RE` — and does not
itself match the proposal vocabulary; the shipped configurations satisfy
both provisos. -/
theorem run_disabled_exhausts_budget (a b : AgentConfig) (r : RunConfig)
    (_hscope : latin1 (pyOrOpt a.initial_prompt defaultKickoff) = true)
    (h : meetingMatch (pyOrOpt a.initial_prompt defaultKickoff) = false) :
    (runDisabled a b r).turns.length = r.max_messages ∧
    (∀ t ∈ (runDisabled a b r).turns, meetingMatch t.text = false) ∧
    (∀ n : Nat, meeting_agreed ((runDisabled a b r).turns.take n) = false) ∧
    (a.name ≠ b.name →
      ∀ (i : Nat) (hlt : i + 1 < (runDisabled a b r).turns.length),
        ((runDisabled a b r).turns.get ⟨i, Nat.lt_of_succ_lt hlt⟩).speaker ≠
        ((runDisabled a b r).turns.get ⟨i + 1, hlt⟩).speaker) := by
  obtain ⟨h1, h2⟩ := run_disabled_core a b r h
  refine ⟨h1, h2, ?_, ?_⟩
  · intro n
    exact meeting_agreed_eq_false_of _ fun t ht => h2 t (List.mem_of_mem_take ht)
  · intro hne i hlt
    have hch := runLoop_alternates genDisabled r.max_messages 0 (initChat a b r)
      (Or.inl rfl) hne List.chain'_nil (by intro t ht; simp [initChat] at ht)
    rw [List.chain'_iff_get] at hch
    have heq : runDisabled a b r =
        runLoop genDisabled r.max_messages 0 (initChat a b r) := rfl
    rw [heq] at hlt
    exact hch i (by omega)

/-- Witness for C5 as amended: three-turn disabled run with the default
kickoff consumes its whole budget and never satisfies the heuristic. -/
theorem run_disabled_exhausts_budget_witness :
    (runDisabled (AgentConfig.mk "A" "pa" "m" none none 300 none)
      (AgentConfig.mk "B" "pb" "m" none none 300 none)
      (RunConfig.mk 3 true)).turns.length = 3 ∧
    meeting_agreed ((runDisabled (AgentConfig.mk "A" "pa" "m" none none 300 none)
      (AgentConfig.mk "B" "pb" "m" none none 300 none)
      (RunConfig.mk 3 true)).turns.take 2) = false :=
  ⟨(run_disabled_exhausts_budget (AgentConfig.mk "A" "pa" "m" none none 300 none)
      (AgentConfig.mk "B" "pb" "m" none none 300 none)
      (RunConfig.mk 3 true) (by decide) (by decide)).1,
   (run_disabled_exhausts_budget (AgentConfig.mk "A" "pa" "m" none none 300 none)
      (AgentConfig.mk "B" "pb" "m" none none 300 none)
      (RunConfig.mk 3 true) (by decide) (by decide)).2.2.1 2⟩

/-- First speaker whose configured opening instruction matches the
proposal vocabulary. -/
def proposerAgent : AgentConfig :=
  AgentConfig.mk "A" "pa" "m" none none 300 (some "Vamos marcar um café?")

/-- Second speaker with no opening instruction. -/
def partnerAgent : AgentConfig :=
  AgentConfig.mk "B" "pb" "m" none none 300 none

/-- C5, counterexample: with a first-speaker opening instruction that
matches the proposal vocabulary, a fully disabled run of budget 5 stops
after only 2 turns because the termination detector fires on the two
time-and-place fallback replies, contradicting the claim that such a run
always records exactly `max_messages` turns with `meeting_agreed` false
at every step. -/
theorem run_disabled_budget_cex :
    (runDisabled proposerAgent partnerAgent (RunConfig.mk 5 true)).turns.length = 2 ∧
    meeting_agreed (runDisabled proposerAgent partnerAgent
      (RunConfig.mk 5 true)).turns = true ∧
    (2 : Nat) ≠ 5 := by decide

/-- C10: whenever the most recent user-role content — drawn from the
Latin-1 repertoire, on which the translated matchers coincide with the
compiled regexes — fails the proposal vocabulary, the disabled-mode
fallback reply (generic suggestion plus the `(provider unavailable)`
note) matches neither the proposal nor the acceptance vocabulary;
consequently, in a fallback-only run whose first kickoff is Latin-1 and
fails the proposal vocabulary, no recorded turn ever matches the
proposal vocabulary. -/
theorem stub_fallback_never_proposes :
    (∀ messages : List Message,
      latin1 (lastUserContent messages) = true →
      meetingMatch (lastUserContent messages) = false →
      meetingMatch (Provider.stub messages "(provider unavailable)") = false ∧
      acceptanceMatch (Provider.stub messages "(provider unavailable)") = false) ∧
    (∀ (a b : AgentConfig) (r : RunConfig),
      latin1 (pyOrOpt a.initial_prompt defaultKickoff) = true →
      meetingMatch (pyOrOpt a.initial_prompt defaultKickoff) = false →
      ∀ t ∈ (runDisabled a b r).turns, meetingMatch t.text = false) := by
  constructor
  · intro messages _ h
    rw [Provider_stub_unavailable_generic messages h]
    exact ⟨meetingMatch_genericFull, acceptanceMatch_genericFull⟩
  · intro a b r _ h
    exact (run_disabled_core a b r h).2

/-- Witness for C10 on the empty message list, whose last user content is
the empty string. -/
theorem stub_fallback_never_proposes_witness :
    meetingMatch (Provider.stub [] "(provider unavailable)") = false ∧
    acceptanceMatch (Provider.stub [] "(provider unavailable)") = false :=
  stub_fallback_never_proposes.1 [] (by decide) (by decide)

/-- First of two agents sharing a display name. -/
def firstDuplicate : AgentConfig :=
  AgentConfig.mk "Homem (40)" "pa" "m" none none 300 none

/-- Second of two agents sharing a display name. -/
def secondDuplicate : AgentConfig :=
  AgentConfig.mk "Homem (40)" "pb" "m" none none 300 none

/-- C3: the claim (and the specification) require duplicate agent names
to be rejected before any turn is produced, but `TwoAgentChat.__init__`
performs no validation — the provider dict literal silently keeps the
second entry for the shared key — and the run proceeds: with two agents
both named `Homem (40)` a disabled run of budget 2 records 2 turns and no
error is ever raised (construction and run are total functions in this
embedding precisely because no code path of the source can raise on
duplicate names). -/
theorem duplicate_names_turns_recorded :
    (runDisabled firstDuplicate secondDuplicate (RunConfig.mk 2 true)).turns.length = 2 ∧
    (runDisabled firstDuplicate secondDuplicate (RunConfig.mk 2 true)).turns ≠ [] := by
  decide

lemma dropWhile_dropWhile (p : Char → Bool) (l : List Char) :
    (l.dropWhile p).dropWhile p = l.dropWhile p := by
  induction l with
  | nil => rfl
  | cons c t ih =>
    rw [List.dropWhile_cons]
    by_cases h : p c
    · rw [if_pos h]; exact ih
    · rw [if_neg h, List.dropWhile_cons, if_neg h]

lemma dropWhile_eq_self_of_prefix (p : Char → Bool) {l m : List Char}
    (hl : l.dropWhile p = l) (hm : m <+: l) : m.dropWhile p = m := by
  cases m with
  | nil => rfl
  | cons c t =>
    obtain ⟨r, hr⟩ := hm
    have hc : p c = false := by
      cases hpc : p c
      · rfl
      · exfalso
        rw [← hr, List.cons_append, List.dropWhile_cons, if_pos hpc] at hl
        have h1 : (List.dropWhile p (t ++ r)).length ≤ (t ++ r).length :=
          (List.dropWhile_suffix p).length_le
        have h2 : (List.dropWhile p (t ++ r)).length = (t ++ r).length + 1 := by
          rw [hl]; simp
        omega
    rw [List.dropWhile_cons, hc]
    simp

/-- Stripping is idempotent on character lists. -/
lemma pyStripList_idem (cs : List Char) :
    pyStripList (pyStripList cs) = pyStripList cs := by
  have hA : (cs.dropWhile pyIsSpace).dropWhile pyIsSpace = cs.dropWhile pyIsSpace :=
    dropWhile_dropWhile pyIsSpace cs
  have hD : ((cs.dropWhile pyIsSpace).reverse.dropWhile pyIsSpace).dropWhile pyIsSpace =
      (cs.dropWhile pyIsSpace).reverse.dropWhile pyIsSpace :=
    dropWhile_dropWhile pyIsSpace _
  have hpre : ((cs.dropWhile pyIsSpace).reverse.dropWhile pyIsSpace).reverse <+:
      cs.dropWhile pyIsSpace := by
    have h1 : (cs.dropWhile pyIsSpace).reverse.dropWhile pyIsSpace <:+
        (cs.dropWhile pyIsSpace).reverse := List.dropWhile_suffix pyIsSpace
    have h2 := List.reverse_prefix.mpr h1
    rwa [List.reverse_reverse] at h2
  have hr : (((cs.dropWhile pyIsSpace).reverse.dropWhile pyIsSpace).reverse).dropWhile
      pyIsSpace = ((cs.dropWhile pyIsSpace).reverse.dropWhile pyIsSpace).reverse :=
    dropWhile_eq_self_of_prefix pyIsSpace hA hpre
  have hdef : pyStripList cs =
      ((cs.dropWhile pyIsSpace).reverse.dropWhile pyIsSpace).reverse := rfl
  rw [hdef]
  unfold pyStripList
  rw [hr, List.reverse_reverse, hD]

/-- Stripping is idempotent. -/
lemma pyStrip_idem (s : String) : pyStrip (pyStrip s) = pyStrip s := by
  unfold pyStrip
  rw [show (String.mk (pyStripList s.toList)).toList = pyStripList s.toList from rfl,
    pyStripList_idem]

/-- If the reply is empty or nonblank, the recorded turn keeps a
non-empty trimmed text. -/
lemma append_text_nonempty (chat : TwoAgentChat) (sp : AgentConfig) (s : String)
    (hs : s = "" ∨ pyStrip s ≠ "")
    (h : ∀ t ∈ chat.turns, pyStrip t.text ≠ "") :
    ∀ t ∈ (chat.append_turn sp (pyOrStr (pyOrStr s "") "...")).turns,
      pyStrip t.text ≠ "" := by
  rw [append_turn_turns]
  intro t ht
  rcases List.mem_append.mp ht with h1 | h2
  · exact h t h1
  · simp only [List.mem_singleton] at h2
    subst h2
    show pyStrip (pyStrip (pyOrStr (pyOrStr s "") "...")) ≠ ""
    rw [pyStrip_idem]
    by_cases hse : s = ""
    · subst hse; decide
    · have he1 : pyOrStr s "" = s := by unfold pyOrStr; rw [if_neg hse]
      have he2 : pyOrStr s "..." = s := by unfold pyOrStr; rw [if_neg hse]
      rw [he1, he2]
      rcases hs with hs | hs
      · exact absurd hs hse
      · exact hs

/-- Loop invariant: with replies that are empty or nonblank, every
recorded turn keeps a non-empty trimmed text. -/
lemma runLoop_nonempty_text (gen : String → List Message → String)
    (hgen : ∀ (name : String) (msgs : List Message),
      gen name msgs = "" ∨ pyStrip (gen name msgs) ≠ "") :
    ∀ (fuel i : Nat) (chat : TwoAgentChat),
      (∀ t ∈ chat.turns, pyStrip t.text ≠ "") →
      ∀ t ∈ (runLoop gen fuel i chat).turns, pyStrip t.text ≠ "" := by
  intro fuel
  induction fuel with
  | zero => intro i chat h; simpa [runLoop] using h
  | succ n ih =>
    intro i chat h
    rw [runLoop_succ]
    dsimp only
    by_cases hm : meeting_agreed
        (chat.append_turn (if i = 0 then chat.agents.1 else chat.agents.2)
          (pyOrStr (pyOrStr
            (gen (if i = 0 then chat.agents.1 else chat.agents.2).name
              (chat.build_messages_for (if i = 0 then chat.agents.1 else chat.agents.2))) "")
            "...")).turns
    · rw [if_pos hm]
      exact append_text_nonempty chat _ _ (hgen _ _) h
    · rw [if_neg hm]
      exact ih (1 - i) _ (append_text_nonempty chat _ _ (hgen _ _) h)

/-- C2 (amended): whatever strings the providers return, provided no
reply is a whitespace-only non-empty string — formalized as each reply
being empty or having a non-empty strip, which is exact for every string
since `pyIsSpace` is the complete Python whitespace table (the actual
`Provider.generate` always returns either the empty string or a stripped
non-empty string, so its replies satisfy this) — every recorded turn has
non-empty trimmed text: an empty reply is replaced by the non-empty
placeholder before being appended. -/
theorem run_turns_nonempty_text (gen : String → List Message → String)
    (a b : AgentConfig) (r : RunConfig)
    (hgen : ∀ (name : String) (msgs : List Message),
      gen name msgs = "" ∨ pyStrip (gen name msgs) ≠ "") :
    ∀ t ∈ (TwoAgentChat.run_until_meeting_or_max gen (initChat a b r)).turns,
      pyStrip t.text ≠ "" := by
  intro t ht
  exact runLoop_nonempty_text gen hgen r.max_messages 0 (initChat a b r)
    (by intro u hu; simp [initChat] at hu) t ht

/-- Witness for C2 as amended: a provider that always returns the empty
string yields the placeholder turn, whose trimmed text is non-empty. -/
theorem run_turns_nonempty_text_witness :
    pyStrip (ConversationTurn.mk "A" "...").text ≠ "" :=
  run_turns_nonempty_text (fun _ _ => "")
    (AgentConfig.mk "A" "pa" "m" none none 300 none)
    (AgentConfig.mk "B" "pb" "m" none none 300 none)
    (RunConfig.mk 1 true)
    (fun _ _ => Or.inl rfl)
    (ConversationTurn.mk "A" "...")
    (by decide)

/-- C2, counterexample: a provider reply consisting of a single space is
truthy, so the `or "..."` placeholder guard does not fire, and
`append_turn` then strips it to the empty string — the run records a turn
whose trimmed text is empty, contradicting the claim for whitespace-only
replies. -/
theorem whitespace_reply_empty_turn_cex :
    (TwoAgentChat.run_until_meeting_or_max (fun _ _ => " ")
      (initChat (AgentConfig.mk "A" "pa" "m" none none 300 none)
        (AgentConfig.mk "B" "pb" "m" none none 300 none)
        (RunConfig.mk 1 true))).turns = [ConversationTurn.mk "A" ""] ∧
    ¬ (∀ t ∈ (TwoAgentChat.run_until_meeting_or_max (fun _ _ => " ")
      (initChat (AgentConfig.mk "A" "pa" "m" none none 300 none)
        (AgentConfig.mk "B" "pb" "m" none none 300 none)
        (RunConfig.mk 1 true))).turns, pyStrip t.text ≠ "") := by
  decide

/-- User-role contents of a replayed history: exactly the texts of the
turns for which the self test fails (the other party's turns). -/
lemma filter_user_map (ts : List ConversationTurn) (q : ConversationTurn → Bool) :
    ((ts.map fun t =>
        Message.mk (if q t then "assistant" else "user") t.text).filter
      fun m => m.role == "user").map Message.content =
    (ts.filter fun t => !(q t)).map ConversationTurn.text := by
  induction ts with
  | nil => rfl
  | cons t ts ih =>
    cases h : q t
    · simp [List.filter_cons, h, ih]
    · simp [List.filter_cons, h, ih]

/-- C4 (amended): the kickoff (the configured opening instruction, or
the generic default when none is configured) is injected as the sole
user content exactly when the turn history is empty — that is, only for
the very first turn of the whole run, taken by the first speaker, and
for no later turn (in particular never for the second speaker); with a
non-empty history the user contents are exactly the other party's turn
texts.  The Scenario E reading holds: for the first turn of the run by
an agent with no configured opening instruction, the context has exactly
one user-role message, carrying the generic default kickoff. -/
theorem build_messages_kickoff_spec (chat : TwoAgentChat) (speaker : AgentConfig) :
    (((chat.build_messages_for speaker).filter fun m => m.role == "user").map
        Message.content =
      if chat.turns.isEmpty then [pyOrOpt speaker.initial_prompt defaultKickoff]
      else (chat.turns.filter fun t => !(t.speaker == speaker.name)).map
        ConversationTurn.text) ∧
    (chat.turns = [] → speaker.initial_prompt = none →
      (chat.build_messages_for speaker).filter (fun m => m.role == "user") =
        [Message.mk "user" defaultKickoff]) := by
  constructor
  · unfold TwoAgentChat.build_messages_for
    cases hturns : chat.turns with
    | nil => rfl
    | cons x xs =>
      rw [show ((x :: xs).isEmpty) = false from rfl]
      simp only [Bool.false_eq_true, if_false]
      rw [List.filter_cons]
      rw [show (((Message.mk "system" speaker.system_preamble).role == "user")) = false
        from rfl]
      simp only [Bool.false_eq_true, if_false]
      exact filter_user_map (x :: xs) fun t => t.speaker == speaker.name
  · intro h1 h2
    unfold TwoAgentChat.build_messages_for
    rw [h1, h2]
    rfl

/-- Witness for C4 as amended: Scenario E on a fresh chat whose first
speaker has no configured opening instruction. -/
theorem build_messages_kickoff_spec_witness :
    ((initChat (AgentConfig.mk "A" "pa" "m" none none 300 none)
        (AgentConfig.mk "B" "pb" "m" none none 300 none)
        (RunConfig.mk 3 true)).build_messages_for
      (AgentConfig.mk "A" "pa" "m" none none 300 none)).filter
        (fun m => m.role == "user") = [Message.mk "user" defaultKickoff] :=
  (build_messages_kickoff_spec _ _).2 rfl rfl

/-- Second speaker with a configured opening instruction. -/
def configuredPartner : AgentConfig :=
  AgentConfig.mk "B" "pb" "m" none none 300 (some "Proposta inicial da B")

/-- Chat state right before the second speaker takes its very first
turn: the first speaker has produced one turn. -/
def chatAfterFirstTurn : TwoAgentChat :=
  TwoAgentChat.mk
    (AgentConfig.mk "A" "pa" "m" none none 300 none, configuredPartner)
    (RunConfig.mk 5 true) [ConversationTurn.mk "A" "Olá"]

/-- C4, counterexample: the context built for the second speaker's first
turn does not contain its configured opening instruction at all — the
code keys the kickoff on the history being empty, not on the agent
taking its first turn, so the sole user content here is the first
speaker's turn text. -/
theorem opening_not_injected_cex :
    ((chatAfterFirstTurn.build_messages_for configuredPartner).filter
        (fun m => m.role == "user")).map Message.content = ["Olá"] ∧
    ¬ ("Proposta inicial da B" ∈
        ((chatAfterFirstTurn.build_messages_for configuredPartner).filter
          (fun m => m.role == "user")).map Message.content) := by
  decide

/-- Substring containment between strings. -/
def strContains (s sub : String) : Prop :=
  sub.data <:+: s.data

lemma dropWhile_eq_self_of_head (p : Char → Bool) (l : List Char)
    (h : ∀ c, l.head? = some c → p c = false) : l.dropWhile p = l := by
  cases l with
  | nil => rfl
  | cons c t => rw [List.dropWhile_cons, h c rfl]; simp

/-- Stripping a list whose first and last characters are non-blank is
the identity. -/
lemma pyStripList_eq_self (l : List Char)
    (h1 : ∀ c, l.head? = some c → pyIsSpace c = false)
    (h2 : ∀ c, l.getLast? = some c → pyIsSpace c = false) :
    pyStripList l = l := by
  unfold pyStripList
  rw [dropWhile_eq_self_of_head pyIsSpace l h1]
  rw [dropWhile_eq_self_of_head pyIsSpace l.reverse
    (fun c hc => h2 c (by rwa [List.head?_reverse] at hc))]
  exact List.reverse_reverse l

/-- The stub reply annotated with a provider-error note keeps the note
marker as a substring, whatever the exception message: the assembled
reply starts with a non-blank character and ends with the closing
parenthesis, so stripping leaves it untouched. -/
lemma stub_note_infix (sug : String) (exc : String)
    (hhead : ∃ c t, sug.data = c :: t ∧ pyIsSpace c = false) :
    ("(provider error:" : String).data <:+:
      (pyStrip (sug ++ " " ++ ("(provider error: " ++ exc ++ ")"))).data := by
  obtain ⟨c, t, hct, hc⟩ := hhead
  have hh : ∀ d, ((sug ++ " " ++ ("(provider error: " ++ exc ++ ")")).data).head? =
      some d → pyIsSpace d = false := by
    intro d hd
    simp only [String.data_append, hct, List.cons_append, List.head?_cons,
      Option.some.injEq] at hd
    rw [← hd]
    exact hc
  have hsplit : (sug ++ " " ++ ("(provider error: " ++ exc ++ ")")).data =
      (sug.data ++ " ".data ++ ("(provider error: " : String).data ++ exc.data) ++
        [')'] := by
    simp [String.data_append, List.append_assoc,
      show (")" : String).data = [')'] from rfl]
  have hl : ∀ d, ((sug ++ " " ++ ("(provider error: " ++ exc ++ ")")).data).getLast? =
      some d → pyIsSpace d = false := by
    intro d hd
    rw [hsplit, List.getLast?_concat] at hd
    simp only [Option.some.injEq] at hd
    rw [← hd]
    rfl
  have hstrip : (pyStrip (sug ++ " " ++ ("(provider error: " ++ exc ++ ")"))).data =
      (sug ++ " " ++ ("(provider error: " ++ exc ++ ")")).data :=
    pyStripList_eq_self _ hh hl
  rw [hstrip]
  refine ⟨sug.data ++ " ".data, [' '] ++ exc.data ++ (")" : String).data, ?_⟩
  simp [String.data_append, List.append_assoc,
    show ("(provider error: " : String).data =
      ("(provider error:" : String).data ++ [' '] from rfl]

/-- C8: when the remote call of an enabled provider raises any
exception, `Provider.generate` does not propagate it but returns the
fallback reply, which contains the inline diagnostic marker
`(provider error:`; the embedded `generate` is a total function, so it
never raises. -/
theorem generate_error_returns_diagnostic (messages : List Message) (exc : String) :
    strContains (Provider.generate true (Except.error exc) messages)
      "(provider error:" := by
  unfold strContains Provider.generate
  rw [if_pos rfl]
  show ("(provider error:" : String).data <:+:
    (Provider.stub messages ("(provider error: " ++ exc ++ ")")).data
  unfold Provider.stub
  by_cases h : meetingMatch (lastUserContent messages) = true
  · rw [if_pos h]
    exact stub_note_infix "Vamos combinar um café quinta às 19:00?" exc
      ⟨'V', _, rfl, rfl⟩
  · rw [if_neg h]
    exact stub_note_infix
      "Adoro a energia. Que tal marcarmos algo leve para nos conhecermos?" exc
      ⟨'A', _, rfl, rfl⟩

/-- Optional subtitle block: written only when the subtitle is truthy
(`if subtitle:` skips both `None` and the empty string). -/
def subtitleBlock : Option String → String
  | some s => if s = "" then "" else "_" ++ s ++ "_\n\n"
  | none => ""

/-- Speaker-attributed turn blocks, in order, each text stripped. -/
def turnsBlock (turns : List ConversationTurn) : String :=
  String.join (turns.map fun t => "**" ++ t.speaker ++ "**: " ++ pyStrip t.text ++ "\n\n")

/-- Document content written by `TwoAgentChat.export_markdown`, as the
concatenation of the successive `handle.write` calls: title heading,
optional subtitle, timestamp line, separator, turn blocks.  The file is
opened with mode `w`, so the document replaces any previous content of
the destination and is a function of the inputs only; the input turns
are read, never mutated. -/
def export_markdown (turns : List ConversationTurn) (title : String)
    (subtitle : Option String) (now : String) : String :=
  "# " ++ title ++ "\n\n" ++ subtitleBlock subtitle ++
    "> Transcript gerado em " ++ now ++ "\n\n---\n\n" ++ turnsBlock turns

/-- C9: two exports of the same turns, title and subtitle differ only in
the embedded generation timestamp — there is a common prefix and a
common suffix, independent of the timestamp, framing it in both
documents (with equal timestamps the documents are byte-identical); and
since the document is a pure function of turns, title, subtitle and
timestamp, the rerun deterministically replaces the destination content
without reading it and without mutating the turns. -/
theorem export_markdown_timestamp_only (turns : List ConversationTurn)
    (title : String) (subtitle : Option String) (now1 now2 : String) :
    ∃ pre post : String,
      export_markdown turns title subtitle now1 = pre ++ now1 ++ post ∧
      export_markdown turns title subtitle now2 = pre ++ now2 ++ post := by
  refine ⟨"# " ++ title ++ "\n\n" ++ subtitleBlock subtitle ++
    "> Transcript gerado em ", "\n\n---\n\n" ++ turnsBlock turns, ?_, ?_⟩ <;>
    simp [export_markdown, String.append_assoc]
